import Mathlib

/-!
# Verification of the gold-tracker batch job (src/main.go)

Shallow embedding of the single-shot alert job: a run loads a boolean
alert state, fetches a gold price, derives the 22K per-gram price,
sends a notification when the price crosses the target while the state
is idle, resets the state when the price rises above the target plus a
buffer, and persists the state only when it changed.

Modelling conventions:
* Go float64 arithmetic is embedded as exact rational arithmetic (ℚ).
  All constants in the program are exact decimals and the claims under
  study stay far from any rounding boundary of %.2f formatting.
* The external effects of a run (HTTP POST of the notification, writes
  to the state file) are recorded in a RunResult: the list of posted
  messages and the list of states written, in order, plus the final
  in-memory state.  The outcome of the notification POST and of the
  price fetch are inputs of run.
* The external library encoding/json is modelled at the JSON-value
  level: the state file's content is none when the read fails (file
  missing), some none when the bytes are not valid JSON, and
  some (some j) when they parse to the JSON value j.
* fmt.Sprintf %.2f is modelled by format2: round to the nearest
  hundredth and print with exactly two fractional digits (the values
  appearing in the claims are positive and are not ties).
-/

namespace GoldTracker

/-- Go constant targetGoldPrice22K = 12700.0 (src/main.go line 16). -/
def targetGoldPrice22K : ℚ := 12700

/-- Go constant resetBuffer = 200.0 (src/main.go line 17). -/
def resetBuffer : ℚ := 200

/-- Go constant ounceToGram = 31.1035 (src/main.go line 103). -/
def ounceToGram : ℚ := 311035 / 10000

/-- Go constant purityFactor = 0.916 (src/main.go line 132). -/
def purityFactor : ℚ := 916 / 1000

/-- Go constant gstFactor = 1.03 (src/main.go line 133). -/
def gstFactor : ℚ := 103 / 100

/-- Go struct State with the single field AlertTriggered
(src/main.go lines 26-28). -/
structure State where
  alertTriggered : Bool
deriving DecidableEq

/-- JSON values, for modelling the behaviour of encoding/json. -/
inductive Json where
  | null : Json
  | bool (b : Bool) : Json
  | num (q : ℚ) : Json
  | str (s : String) : Json
  | arr (xs : List Json) : Json
  | obj (fields : List (String × Json)) : Json

/-- Go json.Unmarshal matches an object key to the struct field name
alert_triggered preferring an exact match but also accepting a
case-insensitive one; its folding lowercases ASCII letters.  With a
single struct field the exact-match preference plays no role: a key
matches exactly when its ASCII-lowercasing equals alert_triggered. -/
def keyMatchesAlertTriggered (key : String) : Bool :=
  key.toList.map Char.toLower = ("alert_triggered").toList

/-- One step of Go json.Unmarshal over an object field, updating the
decoded State: a matching key with a boolean value overwrites the flag
(later occurrences of the key win); a matching key with a value of any
other type is a type error that leaves the flag as it was (the decoder
saves the error and keeps going, and loadState discards it); a
non-matching key is skipped. -/
def applyField (s : State) (kv : String × Json) : State :=
  if keyMatchesAlertTriggered kv.1 then
    match kv.2 with
    | Json.bool b => ⟨b⟩
    | _ => s
  else s

/-- Model of json.Unmarshal(data, &s) for s : State with the zero value
as the starting point: the fields of a top-level object are processed
in order by applyField; any other shape is an error that leaves the
zero value false (in Go the unmarshal error is discarded at
src/main.go line 143). -/
def unmarshalState (j : Json) : State :=
  match j with
  | Json.obj fields => fields.foldl applyField ⟨false⟩
  | _ => ⟨false⟩

/-- Model of json.MarshalIndent of a State, at the JSON-value level
(src/main.go line 148). -/
def marshalState (s : State) : Json :=
  Json.obj [("alert_triggered", Json.bool s.alertTriggered)]

/-- Content of the state file as seen by loadState:
none = the read failed (missing file), some none = bytes that are
not valid JSON, some (some j) = bytes parsing to the JSON value j. -/
abbrev FileContent := Option (Option Json)

/-- Function loadState (src/main.go lines 137-145): a read error yields
the zero value; an unmarshal error is ignored, leaving the zero value;
otherwise the unmarshalled state is returned.  The function is total:
no error reaches the caller. -/
def loadState (file : FileContent) : State :=
  match file with
  | none => ⟨false⟩
  | some none => ⟨false⟩
  | some (some j) => unmarshalState j

/-- Function saveState (src/main.go lines 147-150): the JSON value
written to the state file (write errors are discarded by the code). -/
def saveState (s : State) : Json :=
  marshalState s

/-- Error taxonomy of fetchGoldPricePerGram: transport failure,
non-200 HTTP status, or undecodable body. -/
inductive FetchError where
  | network : FetchError
  | status (code : ℕ) : FetchError
  | decode : FetchError
deriving DecidableEq

/-- A price-API HTTP response: its status code and the decoded price
field of the body (none when the body does not decode to
GoldAPIResponse). -/
structure HttpResponse where
  statusCode : ℕ
  decodedPrice : Option ℚ

/-- Function fetchGoldPricePerGram (src/main.go lines 79-105) as a
function of the transport outcome: transport error, then status check,
then decode, then the per-ounce to per-gram conversion
price / ounceToGram. -/
def fetchGoldPricePerGram (transport : Except Unit HttpResponse) :
    Except FetchError ℚ :=
  match transport with
  | Except.error _ => Except.error FetchError.network
  | Except.ok resp =>
    if resp.statusCode ≠ 200 then
      Except.error (FetchError.status resp.statusCode)
    else
      match resp.decodedPrice with
      | none => Except.error FetchError.decode
      | some p => Except.ok (p / ounceToGram)

/-- Function convertTo22K (src/main.go lines 131-135): pure, no error
path. -/
def convertTo22K (price24K : ℚ) : ℚ :=
  price24K * purityFactor * gstFactor

/-- Two decimal digits with a leading zero, for the fractional part of
the %.2f format. -/
def twoDigits (k : ℕ) : String :=
  if k < 10 then "0" ++ toString k else toString k

/-- Print the integer n as n / 100 hundredths with two fractional
digits (n is nonnegative in every use). -/
def intDotFrac (n : ℤ) : String :=
  toString (n / 100) ++ "." ++ twoDigits (n % 100).natAbs

/-- Model of fmt.Sprintf %.2f on a nonnegative value: round to the
nearest hundredth, print two fractional digits. -/
def format2 (q : ℚ) : String :=
  intDotFrac (round (q * 100))

/-- The notification message built at src/main.go lines 55-59. -/
def alertMessage (price22K : ℚ) : String :=
  "22K Gold hit ₹" ++ format2 price22K ++ " / gram\nTarget: ₹" ++
    format2 targetGoldPrice22K

/-- Observable outcome of one run: the messages POSTed to the
notification API (in order), the states written to the state file (in
order), and the final in-memory state. -/
structure RunResult where
  posts : List String
  saves : List State
  final : State
deriving DecidableEq

/-- Function run (src/main.go lines 39-77), parametrised by the loaded
state, the fetch outcome and whether the notification POST succeeds.
A fetch error aborts the run.  The alert branch fires when
price22K ≤ target and the state is not triggered: the message is
POSTed; on POST failure the run aborts with the state unchanged and
nothing written; on success the state becomes triggered and is saved.
The reset branch then tests the mutated state: when
price22K > target + resetBuffer and the state is triggered, the state
becomes idle and is saved. -/
def run (st0 : State) (fetched : Except FetchError ℚ) (notifyOk : Bool) :
    RunResult :=
  match fetched with
  | Except.error _ => ⟨[], [], st0⟩
  | Except.ok price24K =>
    let price22K := convertTo22K price24K
    if price22K ≤ targetGoldPrice22K ∧ st0.alertTriggered = false then
      let msg := alertMessage price22K
      if notifyOk then
        let st1 : State := ⟨true⟩
        if targetGoldPrice22K + resetBuffer < price22K ∧
            st1.alertTriggered = true then
          ⟨[msg], [st1, ⟨false⟩], ⟨false⟩⟩
        else
          ⟨[msg], [st1], st1⟩
      else
        ⟨[msg], [], st0⟩
    else
      if targetGoldPrice22K + resetBuffer < price22K ∧
          st0.alertTriggered = true then
        ⟨[], [⟨false⟩], ⟨false⟩⟩
      else
        ⟨[], [], st0⟩

/-- Holds when needle is a prefix of hay, on character lists. -/
def startsWithChars : List Char → List Char → Bool
  | [], _ => true
  | _ :: _, [] => false
  | a :: as, b :: bs => a = b && startsWithChars as bs

/-- Holds when needle occurs contiguously inside hay. -/
def containsChars : List Char → List Char → Bool
  | [], needle => needle.isEmpty
  | h :: t, needle => startsWithChars needle (h :: t) || containsChars t needle

/-- Substring containment on strings. -/
def stringContains (hay needle : String) : Bool :=
  containsChars hay.toList needle.toList

/-- A state-file content from which json.Unmarshal actually decodes the
alert flag: the bytes parse to a JSON object holding a boolean field
whose key matches alert_triggered under Go's case-insensitive field
matching. -/
def decodesAsState (file : FileContent) : Prop :=
  ∃ fields kv, file = some (some (Json.obj fields)) ∧ kv ∈ fields ∧
    keyMatchesAlertTriggered kv.1 = true ∧ ∃ b, kv.2 = Json.bool b

/-! ## Theorems -/

/-- C1: when the derived 22K price is at most the target, the loaded
state is Idle and the notification POST succeeds, exactly one
notification is sent and the state is set to triggered and written to
the state file. -/
theorem alert_fires_once_and_persists (price24K : ℚ) (st : State)
    (hle : convertTo22K price24K ≤ targetGoldPrice22K)
    (hidle : st.alertTriggered = false) :
    run st (Except.ok price24K) true =
      ⟨[alertMessage (convertTo22K price24K)], [⟨true⟩], ⟨true⟩⟩ := by
  simp only [run]
  rw [if_pos ⟨hle, hidle⟩, if_pos trivial, if_neg]
  rintro ⟨hgt, -⟩
  simp only [targetGoldPrice22K, resetBuffer] at hle hgt
  linarith

/-- Witness for C1 at price24K = 10000 and the idle state. -/
theorem alert_fires_once_and_persists_witness :
    run ⟨false⟩ (Except.ok 10000) true =
      ⟨[alertMessage (convertTo22K 10000)], [⟨true⟩], ⟨true⟩⟩ :=
  alert_fires_once_and_persists 10000 ⟨false⟩
    (by simp only [convertTo22K, purityFactor, gstFactor, targetGoldPrice22K]
        norm_num)
    rfl

/-- C2: when the derived 22K price is at most the target, the loaded
state is Idle and the notification POST fails, the run aborts: the
state stays the loaded one (triggered false) and nothing is written to
the state file. -/
theorem failed_notify_leaves_state_idle (price24K : ℚ) (st : State)
    (hle : convertTo22K price24K ≤ targetGoldPrice22K)
    (hidle : st.alertTriggered = false) :
    run st (Except.ok price24K) false =
      ⟨[alertMessage (convertTo22K price24K)], [], st⟩ := by
  simp only [run]
  rw [if_pos ⟨hle, hidle⟩, if_neg]
  simp

/-- Witness for C2 at price24K = 10000 and the idle state. -/
theorem failed_notify_leaves_state_idle_witness :
    run ⟨false⟩ (Except.ok 10000) false =
      ⟨[alertMessage (convertTo22K 10000)], [], ⟨false⟩⟩ :=
  failed_notify_leaves_state_idle 10000 ⟨false⟩
    (by simp only [convertTo22K, purityFactor, gstFactor, targetGoldPrice22K]
        norm_num)
    rfl

/-- C3: when no transition condition holds — the derived price lies in
the dead zone (target, target + resetBuffer] with any loaded state, the
derived price is at most the target with the state already triggered,
or the derived price exceeds target + resetBuffer with the state idle —
the run is a no-op: no notification, no write, state unchanged. -/
theorem no_transition_no_effects (price24K : ℚ) (st : State)
    (notifyOk : Bool)
    (hcase :
      (targetGoldPrice22K < convertTo22K price24K ∧
        convertTo22K price24K ≤ targetGoldPrice22K + resetBuffer) ∨
      (convertTo22K price24K ≤ targetGoldPrice22K ∧
        st.alertTriggered = true) ∨
      (targetGoldPrice22K + resetBuffer < convertTo22K price24K ∧
        st.alertTriggered = false)) :
    run st (Except.ok price24K) notifyOk = ⟨[], [], st⟩ := by
  simp only [run]
  rcases hcase with ⟨hgt, hleb⟩ | ⟨hle, htrig⟩ | ⟨hgtb, hidle⟩
  · rw [if_neg, if_neg]
    · rintro ⟨hlt, -⟩
      exact absurd hlt (not_lt.mpr hleb)
    · rintro ⟨hle2, -⟩
      exact absurd hgt (not_lt.mpr hle2)
  · rw [if_neg, if_neg]
    · rintro ⟨hlt, -⟩
      simp only [targetGoldPrice22K, resetBuffer] at hle hlt
      linarith
    · rintro ⟨-, hfalse⟩
      rw [htrig] at hfalse
      exact Bool.noConfusion hfalse
  · rw [if_neg, if_neg]
    · rintro ⟨-, htr⟩
      rw [hidle] at htr
      exact Bool.noConfusion htr
    · rintro ⟨hle2, -⟩
      simp only [targetGoldPrice22K, resetBuffer] at hgtb hle2
      linarith

/-- Witness for C3: dead-zone price (derived from 13500) with a
triggered state, suppression price (derived from 10000) with a
triggered state, and above-buffer price (derived from 14000) with an
idle state. -/
theorem no_transition_no_effects_witness :
    run ⟨true⟩ (Except.ok 13500) true = ⟨[], [], ⟨true⟩⟩ ∧
    run ⟨true⟩ (Except.ok 10000) true = ⟨[], [], ⟨true⟩⟩ ∧
    run ⟨false⟩ (Except.ok 14000) true = ⟨[], [], ⟨false⟩⟩ :=
  ⟨no_transition_no_effects 13500 ⟨true⟩ true
    (Or.inl (by
      simp only [convertTo22K, purityFactor, gstFactor, targetGoldPrice22K,
        resetBuffer]
      norm_num)),
   no_transition_no_effects 10000 ⟨true⟩ true
    (Or.inr (Or.inl ⟨by
      simp only [convertTo22K, purityFactor, gstFactor, targetGoldPrice22K]
      norm_num, rfl⟩)),
   no_transition_no_effects 14000 ⟨false⟩ true
    (Or.inr (Or.inr ⟨by
      simp only [convertTo22K, purityFactor, gstFactor, targetGoldPrice22K,
        resetBuffer]
      norm_num, rfl⟩))⟩

/-- C4: when the derived 22K price exceeds target + resetBuffer and the
loaded state is triggered, the state becomes idle and is written to the
state file, and no notification is sent. -/
theorem reset_persists_idle_no_notification (price24K : ℚ) (st : State)
    (notifyOk : Bool)
    (hgt : targetGoldPrice22K + resetBuffer < convertTo22K price24K)
    (htrig : st.alertTriggered = true) :
    run st (Except.ok price24K) notifyOk = ⟨[], [⟨false⟩], ⟨false⟩⟩ := by
  simp only [run]
  rw [if_neg, if_pos ⟨hgt, htrig⟩]
  rintro ⟨hle, -⟩
  simp only [targetGoldPrice22K, resetBuffer] at hle hgt
  linarith

/-- Witness for C4 at price24K = 14000 (derived price above 12900) and
the triggered state. -/
theorem reset_persists_idle_no_notification_witness :
    run ⟨true⟩ (Except.ok 14000) true = ⟨[], [⟨false⟩], ⟨false⟩⟩ :=
  reset_persists_idle_no_notification 14000 ⟨true⟩ true
    (by simp only [convertTo22K, purityFactor, gstFactor, targetGoldPrice22K,
          resetBuffer]
        norm_num)
    rfl

/-- C9: in every run the triggered flag changes at most once and the
state file is written exactly when the flag changed: either nothing is
written and the state is unchanged, or a single write of the final
state happens and the final flag is the negation of the loaded one. -/
theorem run_writes_only_on_change (st : State)
    (fetched : Except FetchError ℚ) (notifyOk : Bool) :
    ((run st fetched notifyOk).saves = [] ∧
      (run st fetched notifyOk).final = st) ∨
    ((run st fetched notifyOk).saves = [(run st fetched notifyOk).final] ∧
      (run st fetched notifyOk).final.alertTriggered =
        !st.alertTriggered) := by
  match fetched with
  | Except.error e => exact Or.inl ⟨rfl, rfl⟩
  | Except.ok price24K =>
    simp only [run]
    split_ifs with h1 h2 h3 h4
    · exfalso
      obtain ⟨hle, -⟩ := h1
      obtain ⟨hgt, -⟩ := h3
      simp only [targetGoldPrice22K, resetBuffer] at hle hgt
      linarith
    · refine Or.inr ⟨rfl, ?_⟩
      rw [h1.2]
      rfl
    · exact Or.inl ⟨rfl, rfl⟩
    · refine Or.inr ⟨rfl, ?_⟩
      rw [h4.2]
      rfl
    · exact Or.inl ⟨rfl, rfl⟩

/-- C5: a 200 response whose body decodes to a price p makes the fetch
return p / ounceToGram without error, and the derived 22K price is
exactly that per-gram price times purityFactor times gstFactor, through
the total function convertTo22K. -/
theorem fetch_success_and_derivation_exact (resp : HttpResponse) (p : ℚ)
    (hstatus : resp.statusCode = 200) (hbody : resp.decodedPrice = some p) :
    fetchGoldPricePerGram (Except.ok resp) = Except.ok (p / ounceToGram) ∧
    convertTo22K (p / ounceToGram) =
      p / ounceToGram * purityFactor * gstFactor := by
  constructor
  · simp only [fetchGoldPricePerGram, hstatus, hbody]
    norm_num
  · rfl

/-- Witness for C5 at the response with status 200 and price 387000. -/
theorem fetch_success_and_derivation_exact_witness :
    fetchGoldPricePerGram (Except.ok ⟨200, some 387000⟩) =
      Except.ok (387000 / ounceToGram) ∧
    convertTo22K (387000 / ounceToGram) =
      387000 / ounceToGram * purityFactor * gstFactor :=
  fetch_success_and_derivation_exact ⟨200, some 387000⟩ 387000 rfl rfl

/-- Folding the decoder over fields none of which carries a matching
boolean leaves the decoded state untouched. -/
lemma foldl_applyField_id (fields : List (String × Json)) (s : State)
    (h : ∀ kv ∈ fields, keyMatchesAlertTriggered kv.1 = true →
      ∀ b, kv.2 ≠ Json.bool b) :
    fields.foldl applyField s = s := by
  induction fields generalizing s with
  | nil => rfl
  | cons kv rest ih =>
    have hstep : applyField s kv = s := by
      unfold applyField
      by_cases hk : keyMatchesAlertTriggered kv.1 = true
      · rw [if_pos hk]
        cases hv : kv.2 with
        | bool b => exact absurd hv (h kv (List.mem_cons_self kv rest) hk b)
        | null => rfl
        | num q => rfl
        | str t => rfl
        | arr xs => rfl
        | obj gs => rfl
      · rw [if_neg hk]
    rw [List.foldl_cons, hstep]
    exact ih s (fun kv2 hm => h kv2 (List.mem_cons_of_mem kv hm))

/-- C7: loadState is a total function into State (no error reaches the
caller), and every file content from which the decoder does not decode
an alert flag — missing file, invalid JSON, JSON of the wrong shape, or
an object with no matching boolean field — yields the default state
with the flag false. -/
theorem loadState_defaults_without_decoded_flag (file : FileContent)
    (h : ¬ decodesAsState file) : loadState file = ⟨false⟩ := by
  match file with
  | none => rfl
  | some none => rfl
  | some (some j) =>
    match j with
    | Json.null => rfl
    | Json.bool b => rfl
    | Json.num q => rfl
    | Json.str s => rfl
    | Json.arr xs => rfl
    | Json.obj fields =>
      show fields.foldl applyField ⟨false⟩ = ⟨false⟩
      refine foldl_applyField_id fields ⟨false⟩ ?_
      rintro kv hm hk b hv
      exact h ⟨fields, kv, rfl, hm, hk, b, hv⟩

/-- Witness for C7: a missing state file loads as the default state. -/
theorem loadState_defaults_without_decoded_flag_witness :
    loadState none = ⟨false⟩ :=
  loadState_defaults_without_decoded_flag none
    (by rintro ⟨fields, kv, hfile, -⟩; exact Option.noConfusion hfile)

/-- C8: round-trip — marshalling a state with saveState and
unmarshalling the written value with loadState restores the state. -/
theorem saveState_loadState_roundtrip (s : State) :
    loadState (some (some (saveState s))) = s := by
  cases s with
  | mk b => cases b <;> rfl

/-- C10, counterexample: the object with the single key
ALERT_TRIGGERED lacks the exact alert_triggered key, yet Go's
case-insensitive field matching sets the flag: it loads as triggered
true, not as the default. -/
theorem uppercase_key_defeats_missing_field_default :
    loadState
      (some (some (Json.obj [(("ALERT_TRIGGERED"), Json.bool true)]))) =
      ⟨true⟩ ∧
    (∀ kv ∈ [(("ALERT_TRIGGERED" : String), Json.bool true)],
      kv.1 ≠ "alert_triggered") := by
  constructor
  · decide
  · decide

/-- C10, amended: syntactically valid JSON that is an object none of
whose keys matches alert_triggered under Go's ASCII case-insensitive
field matching loads as the default state with the flag false. -/
theorem loadState_no_matching_key_defaults (fields : List (String × Json))
    (h : ∀ kv ∈ fields, keyMatchesAlertTriggered kv.1 = false) :
    loadState (some (some (Json.obj fields))) = ⟨false⟩ := by
  show fields.foldl applyField ⟨false⟩ = ⟨false⟩
  refine foldl_applyField_id fields ⟨false⟩ ?_
  rintro kv hm hk b -
  rw [h kv hm] at hk
  exact Bool.noConfusion hk

/-- Witness for C10: the empty JSON object loads as the default
state. -/
theorem loadState_no_matching_key_defaults_witness :
    loadState (some (some (Json.obj []))) = ⟨false⟩ :=
  loadState_no_matching_key_defaults []
    (fun kv hm => absurd hm (List.not_mem_nil kv))

/-! ## The concrete scenario: a 200 response with price 387000 -/

/-- The price-API response of the scenario: status 200, price 387000
per troy ounce. -/
def response387 : HttpResponse := ⟨200, some 387000⟩

/-- The derived 22K price of the scenario as a single fraction:
387000 / 31.1035 per gram, times 0.916, times 1.03. -/
lemma derived387_eq :
    convertTo22K (387000 / ounceToGram) = 3651267600 / 311035 := by
  simp only [convertTo22K, ounceToGram, purityFactor, gstFactor]
  norm_num

/-- Rounding the scenario's derived price to hundredths. -/
lemma round387_eq : round ((3651267600 / 311035 : ℚ) * 100) = 1173909 := by
  rw [round_eq]
  norm_num

/-- The scenario's derived price printed with two decimals. -/
lemma format2_derived387 :
    format2 (convertTo22K (387000 / ounceToGram)) = "11739.09" := by
  rw [derived387_eq]
  show intDotFrac (round ((3651267600 / 311035 : ℚ) * 100)) = "11739.09"
  rw [round387_eq]
  decide

/-- The target printed with two decimals. -/
lemma format2_target : format2 targetGoldPrice22K = "12700.00" := by
  show intDotFrac (round ((12700 : ℚ) * 100)) = "12700.00"
  rw [show round ((12700 : ℚ) * 100) = 1270000 by rw [round_eq]; norm_num]
  decide

/-- The notification message of the scenario. -/
lemma alertMessage387 :
    alertMessage (convertTo22K (387000 / ounceToGram)) =
      "22K Gold hit ₹11739.09 / gram\nTarget: ₹12700.00" := by
  unfold alertMessage
  rw [format2_derived387, format2_target]
  rfl

/-- The scenario's derived price is below the target. -/
lemma derived387_le :
    convertTo22K (387000 / ounceToGram) ≤ targetGoldPrice22K := by
  rw [derived387_eq]
  simp only [targetGoldPrice22K]
  norm_num

/-- Full evaluation of the scenario run: one notification with the
message showing 11739.09, and the triggered state saved. -/
lemma run387_eq :
    run ⟨false⟩ (fetchGoldPricePerGram (Except.ok response387)) true =
      ⟨["22K Gold hit ₹11739.09 / gram\nTarget: ₹12700.00"],
        [⟨true⟩], ⟨true⟩⟩ := by
  rw [show fetchGoldPricePerGram (Except.ok response387) =
      Except.ok ((387000 : ℚ) / ounceToGram) from rfl]
  simp only [run]
  rw [if_pos ⟨derived387_le, trivial⟩, if_pos trivial, if_neg, alertMessage387]
  rintro ⟨hgt, -⟩
  rw [derived387_eq] at hgt
  simp only [targetGoldPrice22K, resetBuffer] at hgt
  norm_num at hgt

/-- C6, counterexample: in the scenario run (HTTP 200, price 387000,
idle state, POST succeeding) exactly one message is posted and it does
not contain the substring 11736.50. -/
theorem scenario387_message_not_11736_50 :
    (run ⟨false⟩ (fetchGoldPricePerGram (Except.ok response387)) true).posts =
      ["22K Gold hit ₹11739.09 / gram\nTarget: ₹12700.00"] ∧
    stringContains ("22K Gold hit ₹11739.09 / gram\nTarget: ₹12700.00")
      ("11736.50") = false := by
  constructor
  · rw [run387_eq]
  · decide

/-- C6, amended: in the scenario run the derived 22K price is at most
the target, exactly one notification is sent, its message contains the
substring 11739.09, and the triggered state is saved. -/
theorem scenario387_alert_message_11739_09 :
    convertTo22K (387000 / ounceToGram) ≤ targetGoldPrice22K ∧
    run ⟨false⟩ (fetchGoldPricePerGram (Except.ok response387)) true =
      ⟨["22K Gold hit ₹11739.09 / gram\nTarget: ₹12700.00"],
        [⟨true⟩], ⟨true⟩⟩ ∧
    stringContains ("22K Gold hit ₹11739.09 / gram\nTarget: ₹12700.00")
      ("11739.09") = true := by
  refine ⟨derived387_le, run387_eq, ?_⟩
  decide

end GoldTracker
